import Mathlib

/-!
Shallow embedding of `src/animal_multilevel_inheritance_annotated.py`:
a multilevel-inheritance hierarchy (Animal → Dog, Animal → Reptile →
Lizard/Snake) plus a standalone Bacterium class.  Python's name-mangled
private attributes (`self.__x` inside class `C` becomes `_C__x`) are kept
as distinct fields, which is what makes Snake carry two independent tail
flags.  Property getters/setters become pure functions on the record;
the un-initialized `self.eats = bool` sentinel becomes a three-state
value; Python's call-time binding of default vs. required parameters is
modelled with `Option` arguments returning `Except` on a missing
required argument; attribute lookup on Bacterium is modelled by name.
-/

namespace CS140

/-- Value held by the public `eats` attribute: `Animal.__init__` does
`self.eats = bool`, storing the *type object* `bool` as an unset marker,
distinct from both booleans; an assignment later stores a real boolean. -/
inductive EatsVal where
  | unset : EatsVal
  | val : Bool → EatsVal
  deriving DecidableEq, Repr

/-- State of a Python `Animal` instance: private `_Animal__legs` and
`_Animal__tail` plus the public `eats` slot. -/
structure Animal where
  legsA : Int
  tailA : Bool
  eats : EatsVal
  deriving DecidableEq, Repr

/-- `Animal.__init__(self, legs, tail)`: stores legs and tail, then sets
`self.eats = bool` (the unset marker). -/
def Animal.init (legs : Int) (tail : Bool) : Animal :=
  { legsA := legs, tailA := tail, eats := EatsVal.unset }

/-- Class attribute `multicellular = True`, visible on every instance. -/
def Animal.multicellular (_ : Animal) : Bool := true

/-- `@property def legs`: raw passthrough getter. -/
def Animal.legs_get (a : Animal) : Int := a.legsA

/-- `@legs.setter`: raw passthrough setter. -/
def Animal.legs_set (a : Animal) (legs : Int) : Animal :=
  { a with legsA := legs }

/-- `@property def tail`: `if self.__tail == True: return "has" else:
return "does not have"`. -/
def Animal.tail_get (a : Animal) : String :=
  if a.tailA == true then "has" else "does not have"

/-- `@tail.setter`: overwrites the stored flag. -/
def Animal.tail_set (a : Animal) (tail : Bool) : Animal :=
  { a with tailA := tail }

/-- Plain assignment to the public `eats` attribute. -/
def Animal.eats_set (a : Animal) (b : Bool) : Animal :=
  { a with eats := EatsVal.val b }

/-- State of a Python `Dog` instance: private `_Dog__name` and
`_Dog__sound` on top of the inherited Animal slots. -/
structure Dog where
  nameD : String
  soundD : String
  toAnimal : Animal
  deriving DecidableEq, Repr

/-- `Dog.__init__(self, name, legs=4, tail=True)` with all arguments
supplied: sets name and sound then calls `Animal.__init__(self, legs, tail)`. -/
def Dog.init (name : String) (legs : Int) (tail : Bool) : Dog :=
  { nameD := name, soundD := "woof", toAnimal := Animal.init legs tail }

/-- Python call-time binding for `Dog(name, legs=4, tail=True)`: an
omitted argument takes its declared default. -/
def Dog.callInit (name : String) (legs : Option Int) (tail : Option Bool) : Dog :=
  Dog.init name (legs.getD 4) (tail.getD true)

/-- `def bark(self): print(self.__sound)` — modelled as the emitted text. -/
def Dog.bark (d : Dog) : String := d.soundD

/-- `@property def name`. -/
def Dog.name_get (d : Dog) : String := d.nameD

/-- `@name.setter`. -/
def Dog.name_set (d : Dog) (name : String) : Dog := { d with nameD := name }

/-- Inherited `legs` getter (found on class Animal). -/
def Dog.legs_get (d : Dog) : Int := d.toAnimal.legs_get

/-- Inherited `legs` setter. -/
def Dog.legs_set (d : Dog) (legs : Int) : Dog :=
  { d with toAnimal := d.toAnimal.legs_set legs }

/-- Inherited `tail` getter. -/
def Dog.tail_get (d : Dog) : String := d.toAnimal.tail_get

/-- Inherited `tail` setter. -/
def Dog.tail_set (d : Dog) (tail : Bool) : Dog :=
  { d with toAnimal := d.toAnimal.tail_set tail }

/-- Public `eats` slot, inherited from Animal. -/
def Dog.eats_get (d : Dog) : EatsVal := d.toAnimal.eats

/-- Assignment to the inherited public `eats` slot. -/
def Dog.eats_set (d : Dog) (b : Bool) : Dog :=
  { d with toAnimal := d.toAnimal.eats_set b }

/-- Inherited class attribute `multicellular`. -/
def Dog.multicellular (_ : Dog) : Bool := true

/-- State of a Python `Reptile` instance: private `_Reptile__scales` on
top of the inherited Animal slots. -/
structure Reptile where
  scalesR : Bool
  toAnimal : Animal
  deriving DecidableEq, Repr

/-- `Reptile.__init__(self, legs, tail=True)` with both arguments
supplied: `self.__scales = True` then `super().__init__(legs, tail)`. -/
def Reptile.init (legs : Int) (tail : Bool) : Reptile :=
  { scalesR := true, toAnimal := Animal.init legs tail }

/-- Python call-time binding for `Reptile(legs, tail=True)`: `legs` has
no default, so omitting it raises a TypeError before the body runs;
an omitted `tail` takes its default `True`. -/
def Reptile.callInit (legs : Option Int) (tail : Option Bool) : Except String Reptile :=
  match legs with
  | none => Except.error "TypeError: missing 1 required positional argument: legs"
  | some l => Except.ok (Reptile.init l (tail.getD true))

/-- `@property def scales`: `"has"` / `"does not have"`. -/
def Reptile.scales_get (r : Reptile) : String :=
  if r.scalesR == true then "has" else "does not have"

/-- `@scales.setter`. -/
def Reptile.scales_set (r : Reptile) (scales : Bool) : Reptile :=
  { r with scalesR := scales }

/-- Inherited `legs` getter. -/
def Reptile.legs_get (r : Reptile) : Int := r.toAnimal.legs_get

/-- Inherited `legs` setter. -/
def Reptile.legs_set (r : Reptile) (legs : Int) : Reptile :=
  { r with toAnimal := r.toAnimal.legs_set legs }

/-- Inherited `tail` getter. -/
def Reptile.tail_get (r : Reptile) : String := r.toAnimal.tail_get

/-- Inherited `tail` setter. -/
def Reptile.tail_set (r : Reptile) (tail : Bool) : Reptile :=
  { r with toAnimal := r.toAnimal.tail_set tail }

/-- Public `eats` slot, inherited from Animal. -/
def Reptile.eats_get (r : Reptile) : EatsVal := r.toAnimal.eats

/-- Assignment to the inherited public `eats` slot. -/
def Reptile.eats_set (r : Reptile) (b : Bool) : Reptile :=
  { r with toAnimal := r.toAnimal.eats_set b }

/-- Inherited class attribute `multicellular`. -/
def Reptile.multicellular (_ : Reptile) : Bool := true

/-- `class Lizard(Reptile): pass` — no fields or methods of its own;
every attribute resolves on Reptile (or Animal). -/
structure Lizard where
  toReptile : Reptile
  deriving DecidableEq, Repr

/-- Lizard construction is exactly Reptile construction. -/
def Lizard.init (legs : Int) (tail : Bool) : Lizard :=
  ⟨Reptile.init legs tail⟩

/-- Call-time binding, identical to Reptile (inherited `__init__`). -/
def Lizard.callInit (legs : Option Int) (tail : Option Bool) : Except String Lizard :=
  (Reptile.callInit legs tail).map Lizard.mk

/-- Inherited `scales` getter. -/
def Lizard.scales_get (l : Lizard) : String := l.toReptile.scales_get

/-- Inherited `scales` setter. -/
def Lizard.scales_set (l : Lizard) (scales : Bool) : Lizard :=
  ⟨l.toReptile.scales_set scales⟩

/-- Inherited `legs` getter. -/
def Lizard.legs_get (l : Lizard) : Int := l.toReptile.legs_get

/-- Inherited `legs` setter. -/
def Lizard.legs_set (l : Lizard) (legs : Int) : Lizard :=
  ⟨l.toReptile.legs_set legs⟩

/-- Inherited `tail` getter. -/
def Lizard.tail_get (l : Lizard) : String := l.toReptile.tail_get

/-- Inherited `tail` setter. -/
def Lizard.tail_set (l : Lizard) (tail : Bool) : Lizard :=
  ⟨l.toReptile.tail_set tail⟩

/-- Public `eats` slot. -/
def Lizard.eats_get (l : Lizard) : EatsVal := l.toReptile.eats_get

/-- Assignment to the public `eats` slot. -/
def Lizard.eats_set (l : Lizard) (b : Bool) : Lizard :=
  ⟨l.toReptile.eats_set b⟩

/-- Inherited class attribute `multicellular`. -/
def Lizard.multicellular (_ : Lizard) : Bool := true

/-- State of a Python `Snake` instance: private `_Snake__venom` and the
name-mangled shadow flag `_Snake__tail`, on top of the inherited Reptile
and Animal slots (which include the distinct `_Animal__tail`). -/
structure Snake where
  venomS : Bool
  tailS : Bool
  toReptile : Reptile
  deriving DecidableEq, Repr

/-- `Snake.__init__(self, legs=0, tail=True)` with both arguments
supplied: `self.__venom = False`, `self.__tail = True` (the `tail`
parameter is never read), then `super().__init__(legs, self.__tail)` —
so the parent chain always receives `True` for its tail. -/
def Snake.init (legs : Int) (tail : Bool) : Snake :=
  let venom := false
  let ownTail := true
  { venomS := venom, tailS := ownTail, toReptile := Reptile.init legs ownTail }

/-- Python call-time binding for `Snake(legs=0, tail=True)`: both
parameters have defaults. -/
def Snake.callInit (legs : Option Int) (tail : Option Bool) : Snake :=
  Snake.init (legs.getD 0) (tail.getD true)

/-- `@property def venom`: `if self.__venom == False: return "is not"
else: return "is"`. -/
def Snake.venom_get (s : Snake) : String :=
  if s.venomS == false then "is not" else "is"

/-- `@venom.setter`. -/
def Snake.venom_set (s : Snake) (has_venom : Bool) : Snake :=
  { s with venomS := has_venom }

/-- Overriding `@property def tail` on Snake: reads the `_Snake__tail`
shadow flag and returns `"is mostly"` / `"must be dead"`. -/
def Snake.tail_get (s : Snake) : String :=
  if s.tailS == true then "is mostly" else "must be dead"

/-- Overriding `@tail.setter` on Snake: writes only the `_Snake__tail`
shadow flag, leaving `_Animal__tail` untouched. -/
def Snake.tail_set (s : Snake) (tail : Bool) : Snake :=
  { s with tailS := tail }

/-- Parent view `super(Snake, s).tail`: resolves on Animal (Reptile has
no tail property) and reads the `_Animal__tail` flag. -/
def Snake.tail_super_get (s : Snake) : String :=
  s.toReptile.toAnimal.tail_get

/-- Inherited `scales` getter. -/
def Snake.scales_get (s : Snake) : String := s.toReptile.scales_get

/-- Inherited `scales` setter. -/
def Snake.scales_set (s : Snake) (scales : Bool) : Snake :=
  { s with toReptile := s.toReptile.scales_set scales }

/-- Inherited `legs` getter. -/
def Snake.legs_get (s : Snake) : Int := s.toReptile.legs_get

/-- Inherited `legs` setter. -/
def Snake.legs_set (s : Snake) (legs : Int) : Snake :=
  { s with toReptile := s.toReptile.legs_set legs }

/-- Public `eats` slot. -/
def Snake.eats_get (s : Snake) : EatsVal := s.toReptile.eats_get

/-- Assignment to the public `eats` slot. -/
def Snake.eats_set (s : Snake) (b : Bool) : Snake :=
  { s with toReptile := s.toReptile.eats_set b }

/-- Inherited class attribute `multicellular`. -/
def Snake.multicellular (_ : Snake) : Bool := true

/-- `class Bacterium`: a hierarchy of its own; the class body holds only
the class attribute `multicellular = False`, and the default `__init__`
adds no instance attributes. -/
structure Bacterium where
  deriving DecidableEq, Repr

/-- Class attribute `multicellular = False`. -/
def Bacterium.multicellular (_ : Bacterium) : Bool := false

/-- Attribute lookup on a Bacterium instance: the instance dict is
empty and the class dict holds only `multicellular`, so any other name
raises AttributeError. -/
def Bacterium.getattr (_ : Bacterium) (attr : String) : Except String Bool :=
  if attr == "multicellular" then Except.ok false
  else Except.error ("AttributeError: Bacterium object has no attribute " ++ attr)

/-- One mutation through the accessor surface shared by Reptile and
Lizard: the legs/tail/scales setters and an `eats` assignment. -/
inductive ROp where
  | setLegs : Int → ROp
  | setTail : Bool → ROp
  | setScales : Bool → ROp
  | setEats : Bool → ROp
  deriving DecidableEq, Repr

/-- One observation through that shared accessor surface. -/
inductive RObs where
  | legs : RObs
  | tail : RObs
  | scales : RObs
  | eats : RObs
  | multicellular : RObs
  deriving DecidableEq, Repr

/-- Result of an observation (the accessors return values of different
types). -/
inductive ObsVal where
  | intV : Int → ObsVal
  | strV : String → ObsVal
  | eatsV : EatsVal → ObsVal
  | boolV : Bool → ObsVal
  deriving DecidableEq, Repr

/-- Run one mutation on a Reptile. -/
def Reptile.applyOp (r : Reptile) : ROp → Reptile
  | ROp.setLegs v => r.legs_set v
  | ROp.setTail b => r.tail_set b
  | ROp.setScales b => r.scales_set b
  | ROp.setEats b => r.eats_set b

/-- Run a sequence of mutations on a Reptile. -/
def Reptile.runOps (r : Reptile) (ops : List ROp) : Reptile :=
  ops.foldl Reptile.applyOp r

/-- Observe a Reptile. -/
def Reptile.observe (r : Reptile) : RObs → ObsVal
  | RObs.legs => ObsVal.intV r.legs_get
  | RObs.tail => ObsVal.strV r.tail_get
  | RObs.scales => ObsVal.strV r.scales_get
  | RObs.eats => ObsVal.eatsV r.eats_get
  | RObs.multicellular => ObsVal.boolV r.multicellular

/-- Run one mutation on a Lizard (all accessors are inherited). -/
def Lizard.applyOp (l : Lizard) : ROp → Lizard
  | ROp.setLegs v => l.legs_set v
  | ROp.setTail b => l.tail_set b
  | ROp.setScales b => l.scales_set b
  | ROp.setEats b => l.eats_set b

/-- Run a sequence of mutations on a Lizard. -/
def Lizard.runOps (l : Lizard) (ops : List ROp) : Lizard :=
  ops.foldl Lizard.applyOp l

/-- Observe a Lizard. -/
def Lizard.observe (l : Lizard) : RObs → ObsVal
  | RObs.legs => ObsVal.intV l.legs_get
  | RObs.tail => ObsVal.strV l.tail_get
  | RObs.scales => ObsVal.strV l.scales_get
  | RObs.eats => ObsVal.eatsV l.eats_get
  | RObs.multicellular => ObsVal.boolV l.multicellular

/-- Every Lizard mutation is the corresponding Reptile mutation on the
wrapped state. -/
theorem Lizard.applyOp_toReptile (r : Reptile) (op : ROp) :
    Lizard.applyOp ⟨r⟩ op = ⟨Reptile.applyOp r op⟩ := by
  cases op <;> rfl

/-- Running a mutation sequence on a Lizard is running it on the
wrapped Reptile state. -/
theorem Lizard.runOps_toReptile (ops : List ROp) (r : Reptile) :
    (Lizard.runOps ⟨r⟩ ops).toReptile = Reptile.runOps r ops := by
  induction ops generalizing r with
  | nil => rfl
  | cons op rest ih =>
      simp only [Lizard.runOps, List.foldl_cons, Lizard.applyOp_toReptile]
      exact ih (Reptile.applyOp r op)

/-- Every Lizard observation delegates to the wrapped Reptile state. -/
theorem Lizard.observe_toReptile (l : Lizard) (o : RObs) :
    l.observe o = l.toReptile.observe o := by
  cases o <;> rfl

/-- Claim C1: for every Snake, whatever tail value its constructor receives,
both the `_Snake__tail` shadow flag and the `_Animal__tail` parent flag
are true at construction and the default tail accessor returns
"is mostly"; after setting the Snake-level flag to false the default
accessor returns "must be dead" while the parent-view accessor still
returns "has", the parent flag being unchanged. -/
theorem snake_dual_tail (legs : Int) (tail : Bool) :
    (Snake.init legs tail).tailS = true ∧
    (Snake.init legs tail).toReptile.toAnimal.tailA = true ∧
    (Snake.init legs tail).tail_get = "is mostly" ∧
    ((Snake.init legs tail).tail_set false).tail_get = "must be dead" ∧
    ((Snake.init legs tail).tail_set false).toReptile.toAnimal.tailA = true ∧
    ((Snake.init legs tail).tail_set false).tail_super_get = "has" :=
  ⟨rfl, rfl, rfl, rfl, rfl, rfl⟩

/-- Claim C2: every freshly constructed Animal, Dog, Reptile, Lizard or Snake
holds the unset marker in `eats`, a value distinct from both booleans;
after assigning a boolean, reading `eats` returns exactly that boolean. -/
theorem eats_unset_sentinel :
    (∀ (legs : Int) (tail : Bool), (Animal.init legs tail).eats = EatsVal.unset) ∧
    (∀ (name : String) (legs : Int) (tail : Bool),
      (Dog.init name legs tail).eats_get = EatsVal.unset) ∧
    (∀ (legs : Int) (tail : Bool), (Reptile.init legs tail).eats_get = EatsVal.unset) ∧
    (∀ (legs : Int) (tail : Bool), (Lizard.init legs tail).eats_get = EatsVal.unset) ∧
    (∀ (legs : Int) (tail : Bool), (Snake.init legs tail).eats_get = EatsVal.unset) ∧
    EatsVal.unset ≠ EatsVal.val true ∧
    EatsVal.unset ≠ EatsVal.val false ∧
    (∀ (a : Animal) (b : Bool), (a.eats_set b).eats = EatsVal.val b) := by
  refine ⟨fun _ _ => rfl, fun _ _ _ => rfl, fun _ _ => rfl, fun _ _ => rfl,
    fun _ _ => rfl, by decide, by decide, fun _ _ => rfl⟩

/-- Claim C3: a Dog constructed with only a name has 4 legs and tail
description "has"; one constructed with legs=3 and tail=false has 3 legs
and tail description "does not have". -/
theorem dog_construction_defaults :
    (∀ name : String, (Dog.callInit name none none).legs_get = 4) ∧
    (∀ name : String, (Dog.callInit name none none).tail_get = "has") ∧
    (∀ name : String, (Dog.callInit name (some 3) (some false)).legs_get = 3) ∧
    (∀ name : String,
      (Dog.callInit name (some 3) (some false)).tail_get = "does not have") :=
  ⟨fun _ => rfl, fun _ => rfl, fun _ => rfl, fun _ => rfl⟩

/-- Claim C4: the Snake venom getter maps a false flag to "is not" and a true
flag to "is" (false first, opposite ordering to tail/scales); a fresh
Snake reports "is not", and after setting the flag to true it reports
"is". -/
theorem snake_venom_asymmetry :
    (∀ s : Snake, s.venom_get = if s.venomS then "is" else "is not") ∧
    (∀ (legs : Int) (tail : Bool), (Snake.init legs tail).venom_get = "is not") ∧
    (∀ (legs : Int) (tail : Bool),
      ((Snake.init legs tail).venom_set true).venom_get = "is") := by
  refine ⟨fun s => ?_, fun _ _ => rfl, fun _ _ => rfl⟩
  cases h : s.venomS <;> simp [Snake.venom_get, h]

/-- Claim C5: on every Animal, Dog, Reptile, Lizard or Snake state reachable
by any construction or mutation, `multicellular` reads true; on every
Bacterium it reads false. -/
theorem multicellular_constant :
    (∀ a : Animal, a.multicellular = true) ∧
    (∀ d : Dog, d.multicellular = true) ∧
    (∀ r : Reptile, r.multicellular = true) ∧
    (∀ l : Lizard, l.multicellular = true) ∧
    (∀ s : Snake, s.multicellular = true) ∧
    (∀ (r : Reptile) (ops : List ROp), (Reptile.runOps r ops).multicellular = true) ∧
    (∀ b : Bacterium, b.multicellular = false) :=
  ⟨fun _ => rfl, fun _ => rfl, fun _ => rfl, fun _ => rfl, fun _ => rfl,
    fun _ _ => rfl, fun _ => rfl⟩

/-- Claim C6: a Lizard constructed with 4 legs is observationally equivalent
to a Reptile constructed with the same arguments: after any sequence of
setter calls, every exposed accessor (legs, tail, scales, eats,
multicellular) returns the same value on both. -/
theorem lizard_reptile_equivalent (ops : List ROp) (o : RObs) :
    (Lizard.runOps (Lizard.init 4 true) ops).observe o =
      (Reptile.runOps (Reptile.init 4 true) ops).observe o := by
  rw [Lizard.observe_toReptile]
  rw [show Lizard.init 4 true = ⟨Reptile.init 4 true⟩ from rfl]
  rw [Lizard.runOps_toReptile]

/-- Claim C7: calling the Reptile constructor without a leg count is a
missing-required-argument error, while an omitted tail defaults to
true. -/
theorem reptile_required_legs :
    (∀ tail : Option Bool, Reptile.callInit none tail =
      Except.error "TypeError: missing 1 required positional argument: legs") ∧
    (∀ legs : Int, Reptile.callInit (some legs) none =
      Except.ok (Reptile.init legs true)) :=
  ⟨fun _ => rfl, fun _ => rfl⟩

/-- Claim C8: attribute lookup on a Bacterium fails with AttributeError for
each Organism-only member (legs, tail, scales, eats) and succeeds only
for `multicellular`, which reads false. -/
theorem bacterium_no_organism_members (b : Bacterium) :
    (b.getattr "legs").toOption = none ∧
    (b.getattr "tail").toOption = none ∧
    (b.getattr "scales").toOption = none ∧
    (b.getattr "eats").toOption = none ∧
    b.getattr "multicellular" = Except.ok false := by
  refine ⟨?_, ?_, ?_, ?_, ?_⟩ <;> rfl

/-- Claim C9: on every class of the Animal hierarchy the legs setter/getter is
a raw passthrough round-trip, and on every non-Snake class the tail
getter is the pure derived view "has"/"does not have" of the boolean
just stored by the tail setter. -/
theorem legs_tail_roundtrip :
    (∀ (a : Animal) (v : Int), (a.legs_set v).legs_get = v) ∧
    (∀ (d : Dog) (v : Int), (d.legs_set v).legs_get = v) ∧
    (∀ (r : Reptile) (v : Int), (r.legs_set v).legs_get = v) ∧
    (∀ (l : Lizard) (v : Int), (l.legs_set v).legs_get = v) ∧
    (∀ (s : Snake) (v : Int), (s.legs_set v).legs_get = v) ∧
    (∀ (a : Animal) (b : Bool),
      (a.tail_set b).tail_get = if b then "has" else "does not have") ∧
    (∀ (d : Dog) (b : Bool),
      (d.tail_set b).tail_get = if b then "has" else "does not have") ∧
    (∀ (r : Reptile) (b : Bool),
      (r.tail_set b).tail_get = if b then "has" else "does not have") ∧
    (∀ (l : Lizard) (b : Bool),
      (l.tail_set b).tail_get = if b then "has" else "does not have") := by
  refine ⟨fun _ _ => rfl, fun _ _ => rfl, fun _ _ => rfl, fun _ _ => rfl,
    fun _ _ => rfl, fun a b => ?_, fun d b => ?_, fun r b => ?_, fun l b => ?_⟩ <;>
    cases b <;> rfl

/-- Claim C10: every freshly constructed Reptile, Lizard or Snake has its
scales flag true, so the scales description reads "has" before any
assignment. -/
theorem scales_default_true (legs : Int) (tail : Bool) :
    (Reptile.init legs tail).scalesR = true ∧
    (Reptile.init legs tail).scales_get = "has" ∧
    (Lizard.init legs tail).scales_get = "has" ∧
    (Snake.init legs tail).toReptile.scalesR = true ∧
    (Snake.init legs tail).scales_get = "has" :=
  ⟨rfl, rfl, rfl, rfl, rfl⟩

end CS140
